import Mathlib

/-!
# Verification of the CHI-Grants workflow core

Shallow embedding of the CHI-Grants repository's workflow state machine
(`scripts/workflow_manager.py`) and extraction validator
(`ai_agents/data_models.py`), with theorems settling the specification
claims about them.

Modelling conventions:
* Python dynamic values that can appear in `ExtractedField.value` are the
  inductive `PyVal`; Python floats are modelled as rationals (the validator
  only compares against thresholds, never relies on binary rounding).
* Python exceptions are explicit: fallible code returns `Except PyErr _`.
  An uncaught exception in the Python source is an `Except.error` result.
* Timestamps (`datetime.now()`, `created_at`, `updated_at`) are `Nat`
  instants passed explicitly as a `now` argument.
* The ledger (a Python `dict`) is an insertion-ordered association list
  with unique keys; `dictInsert` mirrors `d[k] = v` (replace in place when
  the key exists, append otherwise), `.values()` is `List.map Prod.snd`.
-/

namespace CHIGrants

/-! ## Python dynamic-value model -/

/-- The Python exceptions the validator code can raise or catch. -/
inductive PyErr
  | valueError
  | typeError
  | attributeError
deriving DecidableEq

/-- A Python value that can sit in `ExtractedField.value`
(`Union[str, float, int, List[str]]`, plus `None` since the type hint is
not enforced and the AI collaborator may return `null`). -/
inductive PyVal
  | str (s : String)
  | int (n : Int)
  | flt (q : ℚ)
  | listVal (xs : List String)
  | none
deriving DecidableEq

/-- Python truthiness (`bool(v)`): `None`, `""`, `0`, `0.0`, `[]` are falsy. -/
def pyTruthy : PyVal → Bool
  | PyVal.str s => !s.isEmpty
  | PyVal.int n => n != 0
  | PyVal.flt q => q != 0
  | PyVal.listVal xs => !xs.isEmpty
  | PyVal.none => false

/-- Drop leading and trailing whitespace, as Python `float(str)` does before
parsing. -/
def trimChars (cs : List Char) : List Char :=
  ((cs.dropWhile Char.isWhitespace).reverse.dropWhile Char.isWhitespace).reverse

/-- Numeric value of a digit string. -/
def digitsToNat (cs : List Char) : Nat :=
  cs.foldl (fun a c => 10 * a + (c.toNat - Char.toNat '0')) 0

/-- Parse an unsigned decimal literal (`123`, `12.5`, `.5`, `1.`), the core
of Python `float(str)` grammar.  Exponent, `inf`/`nan` and underscore forms
are not modelled; no claim under verification depends on them. -/
def parseUnsigned (cs : List Char) : Option ℚ :=
  let ip := cs.takeWhile Char.isDigit
  let rest := cs.dropWhile Char.isDigit
  match rest with
  | [] => if ip.isEmpty then Option.none else Option.some (digitsToNat ip : ℚ)
  | '.' :: fp =>
    if fp.all Char.isDigit && !(ip.isEmpty && fp.isEmpty) then
      Option.some ((digitsToNat ip : ℚ) + (digitsToNat fp : ℚ) / ((10 : ℚ) ^ fp.length))
    else Option.none
  | _ => Option.none

/-- Parse a signed decimal literal after trimming, as Python `float(str)`. -/
def parseFloatStr (s : String) : Option ℚ :=
  match trimChars s.toList with
  | '-' :: rest => (parseUnsigned rest).map (fun q => -q)
  | '+' :: rest => parseUnsigned rest
  | cs => parseUnsigned cs

/-- Python `float(value)`: numbers convert, strings parse or raise
`ValueError`, anything else raises `TypeError`. -/
def pyFloat : PyVal → Except PyErr ℚ
  | PyVal.str s =>
    match parseFloatStr s with
    | Option.some q => Except.ok q
    | Option.none => Except.error PyErr.valueError
  | PyVal.int n => Except.ok (n : ℚ)
  | PyVal.flt q => Except.ok q
  | PyVal.listVal _ => Except.error PyErr.typeError
  | PyVal.none => Except.error PyErr.typeError

/-- Parse `YYYY-MM-DD` into the order-faithful key `y*10000 + m*100 + d`,
modelling `datetime.fromisoformat` on date strings (month in 1..12, day in
1..31; the optional time suffix and exact month lengths are not modelled —
only the order of valid dates matters to the validator). -/
def fromisoformat (s : String) : Option Nat :=
  match s.toList with
  | [y1, y2, y3, y4, '-', m1, m2, '-', d1, d2] =>
    if [y1, y2, y3, y4, m1, m2, d1, d2].all Char.isDigit then
      let y := digitsToNat [y1, y2, y3, y4]
      let m := digitsToNat [m1, m2]
      let d := digitsToNat [d1, d2]
      if 1 ≤ m && m ≤ 12 && 1 ≤ d && d ≤ 31 then
        Option.some (y * 10000 + m * 100 + d)
      else Option.none
    else Option.none
  | _ => Option.none

/-- Python `datetime.fromisoformat(value)`: raises `TypeError` on a
non-string argument, `ValueError` on an unparseable string. -/
def pyFromIso : PyVal → Except PyErr Nat
  | PyVal.str s =>
    match fromisoformat s with
    | Option.some d => Except.ok d
    | Option.none => Except.error PyErr.valueError
  | _ => Except.error PyErr.typeError

/-! ## Data model (`ai_agents/data_models.py`) -/

/-- Python `ConfidenceLevel` enum. -/
inductive ConfidenceLevel
  | high
  | medium
  | low
  | uncertain
deriving DecidableEq

/-- Python `ExtractedField` dataclass (the `source_text` and `alternatives`
fields are never read by the validator and are omitted). -/
structure ExtractedField where
  value : PyVal
  confidence : ConfidenceLevel
deriving DecidableEq

/-- Python `TeamMember` dataclass. -/
structure TeamMember where
  name : ExtractedField
  role : ExtractedField
  institution : Option ExtractedField := Option.none
  email : Option ExtractedField := Option.none
deriving DecidableEq

/-- Python `Timeline` dataclass. -/
structure Timeline where
  application_date : Option ExtractedField := Option.none
  award_date : Option ExtractedField := Option.none
  project_start_date : Option ExtractedField := Option.none
  project_end_date : Option ExtractedField := Option.none
  duration_months : Option ExtractedField := Option.none
deriving DecidableEq

/-- Python `BudgetSummary` dataclass. -/
structure BudgetSummary where
  personnel : Option ExtractedField := Option.none
  equipment : Option ExtractedField := Option.none
  travel : Option ExtractedField := Option.none
  supplies : Option ExtractedField := Option.none
  indirect_costs : Option ExtractedField := Option.none
  other : Option ExtractedField := Option.none
  total : Option ExtractedField := Option.none
deriving DecidableEq

/-- Python `GrantData` dataclass, restricted to the attributes the validator can
read.  The omitted attributes (`co_investigators`, `other_personnel`,
`project`, `proposal_document`, `award_letter`, `related_documents`,
`extraction_metadata`, `validation_flags`, `custom_fields`) are never
`ExtractedField` instances and are not named in `REQUIRED_FIELDS`, so
`validate` cannot observe them. -/
structure GrantData where
  grant_id : Option ExtractedField := Option.none
  grant_name : Option ExtractedField := Option.none
  funding_agency : Option ExtractedField := Option.none
  award_amount : Option ExtractedField := Option.none
  grant_type : Option ExtractedField := Option.none
  timeline : Timeline := {}
  principal_investigator : Option TeamMember := Option.none
  budget : BudgetSummary := {}
  current_status : Option ExtractedField := Option.none
  progress_notes : Option ExtractedField := Option.none
deriving DecidableEq

/-- A validation message.  The Python source builds formatted strings; the
embedding keeps them as tagged values carrying the same information, since
no claim depends on the exact string rendering. -/
inductive Msg
  | startAfterEnd
  | invalidDateFormat
  | budgetMismatch (total calculated : ℚ)
  | invalidBudgetTotal
  | awardZeroOrNegative
  | awardTooHigh
  | awardNotNumber
  | lowConfidence (fields : List String)
deriving DecidableEq

/-- Python `ValidationFlags` dataclass. -/
structure ValidationFlags where
  missing_required_fields : List String := []
  inconsistent_dates : List Msg := []
  budget_calculation_errors : List Msg := []
  suspicious_values : List Msg := []
  needs_human_review : Bool := false
deriving DecidableEq

/-! ## The validator (`GrantDataValidator`) -/

/-- Python `GrantDataValidator.REQUIRED_FIELDS`. -/
def REQUIRED_FIELDS : List String :=
  ["grant_id", "grant_name", "funding_agency", "award_amount", "principal_investigator"]

/-- The Python object found by `getattr(grant_data, field_name, None)`:
either `None`, an `ExtractedField` (which has a `.value` attribute), or a
`TeamMember` (which does not). -/
inductive FieldObj
  | pyNone
  | extracted (f : ExtractedField)
  | team (tm : TeamMember)
deriving DecidableEq

/-- Python `getattr(grant_data, field_name, None)` for the required-field names. -/
def getRequired (g : GrantData) : String → FieldObj
  | "grant_id" => (g.grant_id.map FieldObj.extracted).getD FieldObj.pyNone
  | "grant_name" => (g.grant_name.map FieldObj.extracted).getD FieldObj.pyNone
  | "funding_agency" => (g.funding_agency.map FieldObj.extracted).getD FieldObj.pyNone
  | "award_amount" => (g.award_amount.map FieldObj.extracted).getD FieldObj.pyNone
  | "principal_investigator" =>
    (g.principal_investigator.map FieldObj.team).getD FieldObj.pyNone
  | _ => FieldObj.pyNone

/-- One iteration of the required-field loop:
`if not field_value or not field_value.value: append(field_name)`.
`field_value.value` on a `TeamMember` raises `AttributeError` (the
dataclass has no `value` attribute), which nothing in `validate` catches. -/
def requiredStep (g : GrantData) (acc : List String) (name : String) :
    Except PyErr (List String) :=
  match getRequired g name with
  | FieldObj.pyNone => Except.ok (acc ++ [name])
  | FieldObj.extracted f =>
    Except.ok (if pyTruthy f.value then acc else acc ++ [name])
  | FieldObj.team _ => Except.error PyErr.attributeError

/-- The required-field loop of `validate`; an uncaught exception from any
iteration aborts the whole function. -/
def requiredLoop (g : GrantData) (acc : List String) :
    List String → Except PyErr (List String)
  | [] => Except.ok acc
  | name :: rest =>
    match requiredStep g acc name with
    | Except.error e => Except.error e
    | Except.ok acc2 => requiredLoop g acc2 rest

/-- The required-field loop of `validate` over `REQUIRED_FIELDS`. -/
def checkRequiredAll (g : GrantData) : Except PyErr (List String) :=
  requiredLoop g [] REQUIRED_FIELDS

/-- The date-consistency block of `validate`.  Both dates must be attribute-
present and value-truthy; `fromisoformat` on a non-string raises `TypeError`
(uncaught, the `except` clause only names `ValueError`); an unparseable
string degrades to the invalid-format flag. -/
def checkDates (t : Timeline) : Except PyErr (List Msg) :=
  match t.project_start_date, t.project_end_date with
  | Option.some sf, Option.some ef =>
    if pyTruthy sf.value && pyTruthy ef.value then
      match pyFromIso sf.value with
      | Except.error PyErr.valueError => Except.ok [Msg.invalidDateFormat]
      | Except.error e => Except.error e
      | Except.ok sd =>
        match pyFromIso ef.value with
        | Except.error PyErr.valueError => Except.ok [Msg.invalidDateFormat]
        | Except.error e => Except.error e
        | Except.ok ed => Except.ok (if ed ≤ sd then [Msg.startAfterEnd] else [])
    else Except.ok []
  | _, _ => Except.ok []

/-- The budget components summed by `validate`, in source order. -/
def budgetComponentList (b : BudgetSummary) : List (Option ExtractedField) :=
  [b.personnel, b.equipment, b.travel, b.supplies, b.indirect_costs, b.other]

/-- The budget-consistency block of `validate`.  The outer `try` catches
both `ValueError` and `TypeError` from `float(budget.total.value)`; the
inner per-component `try` swallows unparseable components. -/
def checkBudget (b : BudgetSummary) : List Msg :=
  match b.total with
  | Option.some tf =>
    if pyTruthy tf.value then
      match pyFloat tf.value with
      | Except.error _ => [Msg.invalidBudgetTotal]
      | Except.ok total =>
        let calculated_total := (budgetComponentList b).foldl
          (fun acc f? =>
            match f? with
            | Option.some f =>
              if pyTruthy f.value then
                match pyFloat f.value with
                | Except.ok v => acc + v
                | Except.error _ => acc
              else acc
            | Option.none => acc)
          (0 : ℚ)
        if 1000 < |total - calculated_total| then
          [Msg.budgetMismatch total calculated_total]
        else []
    else []
  | Option.none => []

/-- The suspicious-award-amount block of `validate`.  The `try` catches
`ValueError` and `TypeError`; the `if/elif` makes the outcomes exclusive. -/
def checkAward (a : Option ExtractedField) : List Msg :=
  match a with
  | Option.some f =>
    if pyTruthy f.value then
      match pyFloat f.value with
      | Except.ok amount =>
        if amount ≤ 0 then [Msg.awardZeroOrNegative]
        else if 50000000 < amount then [Msg.awardTooHigh]
        else []
      | Except.error _ => [Msg.awardNotNumber]
    else []
  | Option.none => []

/-- Python `confidence in [ConfidenceLevel.LOW, ConfidenceLevel.UNCERTAIN]`. -/
def isLowConf : ConfidenceLevel → Bool
  | ConfidenceLevel.low => true
  | ConfidenceLevel.uncertain => true
  | _ => false

/-- The `grant_data.__dict__` entries that are `ExtractedField` instances,
in dataclass declaration order (`current_status` and `progress_notes` come
after the nested aggregates; the aggregates themselves are never
`ExtractedField` instances). -/
def topLevelFields (g : GrantData) : List (String × Option ExtractedField) :=
  [("grant_id", g.grant_id), ("grant_name", g.grant_name),
   ("funding_agency", g.funding_agency), ("award_amount", g.award_amount),
   ("grant_type", g.grant_type), ("current_status", g.current_status),
   ("progress_notes", g.progress_notes)]

/-- The low-confidence aggregation loop of `validate`. -/
def lowConfidenceFields (g : GrantData) : List String :=
  (topLevelFields g).foldl
    (fun acc p =>
      match p.2 with
      | Option.some f => if isLowConf f.confidence then acc ++ [p.1] else acc
      | Option.none => acc)
    []

/-- Python `GrantDataValidator.validate`.  An `Except.error` result is an uncaught
Python exception escaping `validate`. -/
def validate (g : GrantData) : Except PyErr ValidationFlags :=
  match checkRequiredAll g with
  | Except.error e => Except.error e
  | Except.ok missing =>
    match checkDates g.timeline with
    | Except.error e => Except.error e
    | Except.ok dates =>
      let budgetErrs := checkBudget g.budget
      let lowConf := lowConfidenceFields g
      let susp := checkAward g.award_amount ++
        (if lowConf.isEmpty then [] else [Msg.lowConfidence lowConf])
      Except.ok
        { missing_required_fields := missing
          inconsistent_dates := dates
          budget_calculation_errors := budgetErrs
          suspicious_values := susp
          needs_human_review :=
            !missing.isEmpty || !dates.isEmpty || !budgetErrs.isEmpty ||
              decide (2 < susp.length) }

/-- Python `create_sample_grant_data()` from `data_models.py` (restricted to the
attributes the validator reads; `extraction_metadata` is never read). -/
def create_sample_grant_data : GrantData :=
  { grant_id := Option.some ⟨PyVal.str "NSF-2024-001", ConfidenceLevel.high⟩
    grant_name := Option.some ⟨PyVal.str "AI Research Initiative", ConfidenceLevel.high⟩
    funding_agency :=
      Option.some ⟨PyVal.str "National Science Foundation", ConfidenceLevel.high⟩
    award_amount := Option.some ⟨PyVal.int 500000, ConfidenceLevel.medium⟩
    grant_type := Option.some ⟨PyVal.str "Research", ConfidenceLevel.high⟩
    principal_investigator :=
      Option.some
        { name := ⟨PyVal.str "Dr. Jane Smith", ConfidenceLevel.high⟩
          role := ⟨PyVal.str "Principal Investigator", ConfidenceLevel.high⟩ }
    timeline :=
      { project_start_date :=
          Option.some ⟨PyVal.str "2024-01-01", ConfidenceLevel.medium⟩
        project_end_date :=
          Option.some ⟨PyVal.str "2026-12-31", ConfidenceLevel.medium⟩ } }

example : pyTruthy (PyVal.str " ") = true := by decide
example : parseFloatStr "12.5" = Option.some (25 / 2 : ℚ) := by
  simp [parseFloatStr, trimChars, parseUnsigned, digitsToNat]
  norm_num
example : parseFloatStr "-5" = Option.some (-5 : ℚ) := by rfl
example : parseFloatStr "abc" = Option.none := by decide
example : fromisoformat "2024-01-01" = Option.some 20240101 := by decide
example : fromisoformat "not-a-date" = Option.none := by decide
example : validate {} =
    Except.ok
      { missing_required_fields := REQUIRED_FIELDS
        needs_human_review := true } := by rfl
example : validate create_sample_grant_data =
    Except.error PyErr.attributeError := by rfl

/-! ## Workflow manager (`scripts/workflow_manager.py`) -/

/-- Python `WorkflowState` enum. -/
inductive WorkflowState
  | pending
  | processing
  | extracted
  | validated
  | approved
  | completed
  | error
deriving DecidableEq

/-- The string `.value` of each `WorkflowState` member. -/
def stateValue : WorkflowState → String
  | WorkflowState.pending => "pending"
  | WorkflowState.processing => "processing"
  | WorkflowState.extracted => "extracted"
  | WorkflowState.validated => "validated"
  | WorkflowState.approved => "approved"
  | WorkflowState.completed => "completed"
  | WorkflowState.error => "error"

/-- Python `WorkflowState(string)`: the enum constructor, which raises
`ValueError` (here: `Option.none`) on an unknown value. -/
def parseWorkflowState : String → Option WorkflowState
  | "pending" => Option.some WorkflowState.pending
  | "processing" => Option.some WorkflowState.processing
  | "extracted" => Option.some WorkflowState.extracted
  | "validated" => Option.some WorkflowState.validated
  | "approved" => Option.some WorkflowState.approved
  | "completed" => Option.some WorkflowState.completed
  | "error" => Option.some WorkflowState.error
  | _ => Option.none

/-- Python `DocumentInfo` dataclass.  Timestamps are `Nat` instants. -/
structure DocumentInfo where
  filename : String
  original_path : String
  current_state : WorkflowState
  created_at : Nat
  updated_at : Nat
  metadata : List (String × String)
  error_message : Option String := Option.none
deriving DecidableEq

/-- The in-memory `workflow_status` dict: an insertion-ordered association
list whose keys are unique (Python `dict` guarantees uniqueness). -/
abbrev Ledger : Type := List (String × DocumentInfo)

/-- Python `d[k]` / `d.get(k)`: first (hence only) binding of `k`. -/
def lookupDoc : Ledger → String → Option DocumentInfo
  | [], _ => Option.none
  | p :: rest, k => if p.1 = k then Option.some p.2 else lookupDoc rest k

/-- Python `d[k] = v`: replace the binding in place when the key exists,
append otherwise. -/
def dictInsert : Ledger → String → DocumentInfo → Ledger
  | [], k, v => [(k, v)]
  | p :: rest, k, v =>
    if p.1 = k then (k, v) :: rest else p :: dictInsert rest k v

/-- The key list of a ledger. -/
def ledgerKeys (l : Ledger) : List String :=
  (l : List (String × DocumentInfo)).map Prod.fst

/-- The ledger invariant: each filename appears at most once. -/
def keysNodup (l : Ledger) : Prop := (ledgerKeys l).Nodup

/-- Python `Path(filepath).name`: the last path component, after dropping empty
components and `.` components the way `pathlib` normalizes them
(`Path("a/b/").name = "b"`, `Path("a/.").name = "a"`, `Path("/").name = ""`).
Drive letters and backslashes (Windows) are not modelled. -/
def pathComponents (cs : List Char) : List (List Char) :=
  cs.foldr
    (fun c comps =>
      if c = '/' then [] :: comps
      else
        match comps with
        | [] => [[c]]
        | h :: t => (c :: h) :: t)
    [[]]

/-- Python `Path(filepath).name`. -/
def pathName (s : String) : String :=
  (((pathComponents s.toList).map (fun cs => String.mk cs)).filter
    (fun c => c != "" && c != ".")).getLastD ""

/-- Python `WorkflowManager.register_document` (the load-mutate-save cycle acts on
the ledger value; `datetime.now()` is the explicit `now`).  Returns the
updated ledger and the returned filename. -/
def register_document (l : Ledger) (filepath : String)
    (metadata : List (String × String)) (now : Nat) : Ledger × String :=
  let filename := pathName filepath
  let doc_info : DocumentInfo :=
    { filename := filename
      original_path := filepath
      current_state := WorkflowState.pending
      created_at := now
      updated_at := now
      metadata := metadata
      error_message := Option.none }
  (dictInsert l filename doc_info, filename)

/-- Python `WorkflowManager.transition_state`.  Fails (ledger unchanged, `False`)
when the filename is absent; otherwise rewrites `current_state`, bumps
`updated_at` to `now`, and sets `error_message` to the argument
(default `None` at call sites that omit it). -/
def transition_state (l : Ledger) (filename : String)
    (new_state : WorkflowState) (error_message : Option String) (now : Nat) :
    Ledger × Bool :=
  match lookupDoc l filename with
  | Option.none => (l, false)
  | Option.some doc_info =>
    (dictInsert l filename
      { doc_info with
        current_state := new_state
        updated_at := now
        error_message := error_message },
     true)

/-- Python `WorkflowManager.state_dirs`: the directory configured for each state
(relative to the base path; `COMPLETED` and `ERROR` have none). -/
def state_dirs : WorkflowState → Option String
  | WorkflowState.pending => Option.some "intake/pending"
  | WorkflowState.processing => Option.some "intake/processing"
  | WorkflowState.extracted => Option.some "workflows/extracted"
  | WorkflowState.validated => Option.some "workflows/validated"
  | WorkflowState.approved => Option.some "workflows/approved"
  | _ => Option.none

/-- The filesystem as the set of file paths that exist. -/
structure Fs where
  files : List String
deriving DecidableEq

/-- Environment for `move_document`: the filesystem, plus whether the
physical relocation (`mkdir`/`shutil.move`) raises — `Option.some msg`
simulates an exception with message `msg`, reaching the `except` clause. -/
structure MoveEnv where
  fs : Fs
  shutilFailure : Option String := Option.none
deriving DecidableEq

/-- Python `WorkflowManager.move_document`.  Returns (ledger, filesystem, success).
The two guard failures (`state_dirs.get` returning `None`, source file
absent) `return False` without touching the ledger; only an exception from
the physical relocation reaches the `except` clause, which transitions the
record to `ERROR` with the exception message. -/
def move_document (env : MoveEnv) (l : Ledger) (filename : String)
    (from_state to_state : WorkflowState) (now : Nat) :
    Ledger × Fs × Bool :=
  match state_dirs from_state, state_dirs to_state with
  | Option.some from_dir, Option.some to_dir =>
    let from_path := from_dir ++ "/" ++ filename
    let to_path := to_dir ++ "/" ++ filename
    if from_path ∈ env.fs.files then
      match env.shutilFailure with
      | Option.some msg =>
        ((transition_state l filename WorkflowState.error (Option.some msg) now).1,
         env.fs, false)
      | Option.none =>
        ((transition_state l filename to_state Option.none now).1,
         ⟨env.fs.files.erase from_path ++ [to_path]⟩, true)
    else (l, env.fs, false)
  | _, _ => (l, env.fs, false)

/-- Python `WorkflowManager.list_documents_by_state`: a list comprehension over
`workflow_status.values()` — dict order, no sorting. -/
def list_documents_by_state (l : Ledger) (state : WorkflowState) :
    List DocumentInfo :=
  ((l : List (String × DocumentInfo)).map Prod.snd).filter
    (fun doc => doc.current_state == state)

instance : DecidableRel (fun (a b : DocumentInfo) => a.created_at ≤ b.created_at) :=
  fun a b => Nat.decLe a.created_at b.created_at

/-- Python `WorkflowManager.get_next_documents_for_processing`: Python
`list.sort(key=lambda x: x.created_at)` is a stable ascending sort, which
`List.insertionSort` by `created_at ≤ created_at` computes exactly. -/
def get_next_documents_for_processing (l : Ledger) (state : WorkflowState)
    (limit : Nat) : List String :=
  (((list_documents_by_state l state).insertionSort
      (fun a b => a.created_at ≤ b.created_at)).take limit).map
    DocumentInfo.filename

/-- Python `WorkflowManager.cleanup_error_documents`: transition every `ERROR`
record back to `PENDING` (no `error_message` argument, so it is `None`). -/
def cleanup_error_documents (l : Ledger) (now : Nat) : Ledger :=
  (list_documents_by_state l WorkflowState.error).foldl
    (fun acc doc => (transition_state acc doc.filename WorkflowState.pending
      Option.none now).1)
    l

/-! ## Ledger persistence (`get_workflow_status` / `save_workflow_status`) -/

/-- One value of the persisted JSON object.  ISO-8601 timestamp strings are
modelled by the instants they denote (`Nat`); a record whose timestamp
string does not parse falls under `RawStatus.invalidText` below. -/
structure RawRecord where
  filename : String
  original_path : String
  current_state : String
  created_at : Nat
  updated_at : Nat
  metadata : List (String × String)
  error_message : Option String
deriving DecidableEq

/-- The persisted form of the status file: either text `json.load` (or the
per-record key lookups) rejects, or a JSON object keyed by filename. -/
inductive RawStatus
  | invalidText
  | obj (entries : List (String × RawRecord))
deriving DecidableEq

/-- Reconstruct one `DocumentInfo`; `WorkflowState(data['current_state'])`
raises on an unknown state string. -/
def parseRecord (r : RawRecord) : Option DocumentInfo :=
  (parseWorkflowState r.current_state).map
    (fun st =>
      { filename := r.filename
        original_path := r.original_path
        current_state := st
        created_at := r.created_at
        updated_at := r.updated_at
        metadata := r.metadata
        error_message := r.error_message })

/-- Reconstruct the whole mapping; any bad record aborts (the exception
propagates to the `except` clause of `get_workflow_status`). -/
def parseEntries : List (String × RawRecord) → Option Ledger
  | [] => Option.some []
  | (k, r) :: rest =>
    match parseRecord r, parseEntries rest with
    | Option.some d, Option.some l => Option.some ((k, d) :: l)
    | _, _ => Option.none

/-- Parse a persisted status file. -/
def parseStatus : RawStatus → Option Ledger
  | RawStatus.invalidText => Option.none
  | RawStatus.obj entries => parseEntries entries

/-- Python `WorkflowManager.get_workflow_status`.  `Option.none` input is a
missing status file.  Returns the ledger together with whether the
`except` clause printed its warning: on any parse failure the function
returns the empty mapping with a warning — it never fails. -/
def get_workflow_status (file : Option RawStatus) : Ledger × Bool :=
  match file with
  | Option.none => ([], false)
  | Option.some raw =>
    match parseStatus raw with
    | Option.some l => (l, false)
    | Option.none => ([], true)

/-- Python `self.status_file`. -/
def statusFilePath : String := "workflows/workflow_status.json"

/-- Serialization of one record, as `save_workflow_status` builds it. -/
def serializeRecord (d : DocumentInfo) : RawRecord :=
  { filename := d.filename
    original_path := d.original_path
    current_state := stateValue d.current_state
    created_at := d.created_at
    updated_at := d.updated_at
    metadata := d.metadata
    error_message := d.error_message }

/-- The serialized form of the whole ledger. -/
def serializeStatus (l : Ledger) : RawStatus :=
  RawStatus.obj ((l : List (String × DocumentInfo)).map
    (fun p => (p.1, serializeRecord p.2)))

/-- A filesystem write performed by the persistence layer. -/
inductive FsOp
  | writeTruncate (path : String) (content : RawStatus)
  | renameInto (src dest : String)
deriving DecidableEq

/-- Python `WorkflowManager.save_workflow_status`: `open(self.status_file, 'w')`
followed by `json.dump` — a single truncate-and-write directly on the
status file, with no temporary file and no rename. -/
def save_workflow_status (l : Ledger) : List FsOp :=
  [FsOp.writeTruncate statusFilePath (serializeStatus l)]

example :
    pathName "intake/pending/a.pdf" = "a.pdf" ∧ pathName "a.pdf" = "a.pdf" ∧
      pathName "a/b/" = "b" ∧ pathName "/" = "" := by decide

/-! ## Helper lemmas about the validator -/

/-- Written from the amended reading of the presence rule: a required field
counts as missing iff its attribute is `None` or its value is Python-falsy
(`None`, `""`, `0`, `0.0`, `[]`); strings are not trimmed, so a
whitespace-only string counts as present.  (The `team` case is unreachable
whenever `validate` returns: that iteration raises `AttributeError`.) -/
def isMissingFieldPred (g : GrantData) (name : String) : Bool :=
  match getRequired g name with
  | FieldObj.pyNone => true
  | FieldObj.extracted f => !pyTruthy f.value
  | FieldObj.team _ => false

lemma validate_ok_parts (g : GrantData) (flags : ValidationFlags)
    (h : validate g = Except.ok flags) :
    checkRequiredAll g = Except.ok flags.missing_required_fields ∧
    checkDates g.timeline = Except.ok flags.inconsistent_dates ∧
    flags.budget_calculation_errors = checkBudget g.budget ∧
    flags.suspicious_values =
      checkAward g.award_amount ++
        (if (lowConfidenceFields g).isEmpty then []
         else [Msg.lowConfidence (lowConfidenceFields g)]) ∧
    flags.needs_human_review =
      (!flags.missing_required_fields.isEmpty ||
        !flags.inconsistent_dates.isEmpty ||
        !flags.budget_calculation_errors.isEmpty ||
        decide (2 < flags.suspicious_values.length)) := by
  cases hr : checkRequiredAll g with
  | error e => simp [validate, hr] at h
  | ok missing =>
    cases hd : checkDates g.timeline with
    | error e => simp [validate, hr, hd] at h
    | ok dates =>
      simp only [validate, hr, hd, Except.ok.injEq] at h
      subst h
      exact ⟨rfl, rfl, rfl, rfl, rfl⟩

/-- One required-field iteration never raises unless the attribute is a
`TeamMember`, and then it records the field iff its value is falsy. -/
lemma requiredStep_ok_of_not_team (g : GrantData) (acc : List String)
    (name : String) (h : ∀ tm, getRequired g name ≠ FieldObj.team tm) :
    requiredStep g acc name =
      Except.ok (acc ++ if isMissingFieldPred g name then [name] else []) := by
  unfold requiredStep isMissingFieldPred
  cases hobj : getRequired g name with
  | pyNone => simp
  | extracted f => cases ht : pyTruthy f.value <;> simp [ht]
  | team tm => exact absurd hobj (h tm)

lemma requiredLoop_eq (g : GrantData) (names : List String) :
    ∀ acc : List String,
      (∀ n ∈ names, ∀ tm, getRequired g n ≠ FieldObj.team tm) →
        requiredLoop g acc names =
          Except.ok (acc ++ names.filter (fun n => isMissingFieldPred g n)) := by
  induction names with
  | nil => intro acc _; simp [requiredLoop]
  | cons n rest ih =>
    intro acc h
    have hstep := requiredStep_ok_of_not_team g acc n (h n (List.mem_cons_self n rest))
    simp only [requiredLoop, hstep]
    rw [ih _ (fun m hm => h m (List.mem_cons_of_mem n hm))]
    cases hmiss : isMissingFieldPred g n <;>
      simp [hmiss, List.filter_cons, List.append_assoc]

lemma requiredLoop_ok_imp (g : GrantData) (names : List String) :
    ∀ (acc m : List String),
      requiredLoop g acc names = Except.ok m →
        ∀ n ∈ names, ∀ tm, getRequired g n ≠ FieldObj.team tm := by
  induction names with
  | nil => intro acc m _ n hn; exact absurd hn (List.not_mem_nil n)
  | cons n rest ih =>
    intro acc m hfold p hp tm hobj
    cases hstep : requiredStep g acc n with
    | error e =>
      simp only [requiredLoop, hstep] at hfold
      exact Except.noConfusion hfold
    | ok acc2 =>
      simp only [requiredLoop, hstep] at hfold
      cases List.mem_cons.mp hp with
      | inl hpn =>
        subst hpn
        have : requiredStep g acc p = Except.error PyErr.attributeError := by
          unfold requiredStep; rw [hobj]
        rw [this] at hstep
        exact Except.noConfusion hstep
      | inr hrest => exact ih acc2 m hfold p hrest tm hobj

/-- If the required-field loop runs to completion, the principal
investigator attribute cannot be a `TeamMember` (that iteration raises). -/
lemma checkRequiredAll_ok_pi_none (g : GrantData) (m : List String)
    (h : checkRequiredAll g = Except.ok m) :
    g.principal_investigator = Option.none := by
  cases hpi : g.principal_investigator with
  | none => rfl
  | some tm =>
    have hobj : getRequired g "principal_investigator" = FieldObj.team tm := by
      simp [getRequired, hpi]
    have hmem : "principal_investigator" ∈ REQUIRED_FIELDS := by decide
    exact absurd hobj
      (requiredLoop_ok_imp g REQUIRED_FIELDS [] m h
        "principal_investigator" hmem tm)

lemma checkRequiredAll_ok_filter (g : GrantData) (m : List String)
    (h : checkRequiredAll g = Except.ok m) :
    m = REQUIRED_FIELDS.filter (fun n => isMissingFieldPred g n) := by
  have hpi := checkRequiredAll_ok_pi_none g m h
  have hnoteam : ∀ n ∈ REQUIRED_FIELDS, ∀ tm, getRequired g n ≠ FieldObj.team tm := by
    intro n hn tm
    simp only [REQUIRED_FIELDS, List.mem_cons, List.not_mem_nil, or_false] at hn
    rcases hn with rfl | rfl | rfl | rfl | rfl
    · cases h1 : g.grant_id <;> simp [getRequired, h1]
    · cases h1 : g.grant_name <;> simp [getRequired, h1]
    · cases h1 : g.funding_agency <;> simp [getRequired, h1]
    · cases h1 : g.award_amount <;> simp [getRequired, h1]
    · simp [getRequired, hpi]
  have heq := requiredLoop_eq g REQUIRED_FIELDS [] hnoteam
  unfold checkRequiredAll at h
  rw [heq] at h
  simpa using h.symm

/-- Award-amount messages never occur in the low-confidence tail of
`suspicious_values`. -/
lemma award_msg_not_in_tail (g : GrantData) (m : Msg)
    (hm : m = Msg.awardZeroOrNegative ∨ m = Msg.awardTooHigh ∨ m = Msg.awardNotNumber) :
    m ∉ (if (lowConfidenceFields g).isEmpty then ([] : List Msg)
         else [Msg.lowConfidence (lowConfidenceFields g)]) := by
  rcases hm with rfl | rfl | rfl <;> split <;> simp

/-! ## Claim C2 -/

/-- A grant whose principal investigator is present, reaching the
`not field_value.value` attribute access on a `TeamMember`. -/
def piOnlyGrant : GrantData :=
  { principal_investigator :=
      Option.some
        { name := ⟨PyVal.str "Dr. Ada Diaz", ConfidenceLevel.high⟩
          role := ⟨PyVal.str "PI", ConfidenceLevel.high⟩ } }

/-- A grant whose start date carries a non-string value: the date guard
passes (the value is truthy) and `datetime.fromisoformat` raises
`TypeError`, which the `except ValueError` clause does not catch. -/
def intDateGrant : GrantData :=
  { timeline :=
      { project_start_date := Option.some ⟨PyVal.int 5, ConfidenceLevel.high⟩
        project_end_date :=
          Option.some ⟨PyVal.str "2024-01-01", ConfidenceLevel.high⟩ } }

/-- C2: the claim says `validate` runs to completion on every input and
never raises.  The code violates this: with a present
`principal_investigator` (a `TeamMember`), the required-field loop
evaluates `field_value.value` on an object with no `value` attribute and
raises `AttributeError`; with a non-string date value,
`datetime.fromisoformat` raises an uncaught `TypeError`.  The repository's
own `create_sample_grant_data()` (run by the module's `__main__` block)
has a present principal investigator, so the module's own demo crashes —
the code contradicts its own usage, a code bug. -/
theorem C2_validate_raises :
    validate piOnlyGrant = Except.error PyErr.attributeError ∧
    validate intDateGrant = Except.error PyErr.typeError ∧
    validate create_sample_grant_data = Except.error PyErr.attributeError := by
  refine ⟨?_, ?_, ?_⟩ <;> rfl

/-! ## Claim C3 -/

/-- C3: whenever `validate` returns flags, `needs_human_review` is true iff
some required field is missing, or some date inconsistency was flagged, or
some budget calculation error was flagged, or there are strictly more than
two suspicious-value entries (the low-confidence names contributing at
most one combined entry, which the `suspicious_values` construction in
`validate` guarantees). -/
theorem C3_needs_human_review (g : GrantData) (flags : ValidationFlags)
    (h : validate g = Except.ok flags) :
    flags.needs_human_review = true ↔
      (flags.missing_required_fields ≠ [] ∨ flags.inconsistent_dates ≠ [] ∨
        flags.budget_calculation_errors ≠ [] ∨
        2 < flags.suspicious_values.length) := by
  obtain ⟨-, -, -, -, hrev⟩ := validate_ok_parts g flags h
  rw [hrev]
  simp [List.isEmpty_iff, or_assoc]

/-- Witness for C3 at the empty grant: every required field is missing and
review is needed. -/
theorem C3_needs_human_review_witness :
    (ValidationFlags.mk REQUIRED_FIELDS [] [] [] true).needs_human_review = true ↔
      ((ValidationFlags.mk REQUIRED_FIELDS [] [] [] true).missing_required_fields ≠ [] ∨
        (ValidationFlags.mk REQUIRED_FIELDS [] [] [] true).inconsistent_dates ≠ [] ∨
        (ValidationFlags.mk REQUIRED_FIELDS [] [] [] true).budget_calculation_errors ≠ [] ∨
        2 < (ValidationFlags.mk REQUIRED_FIELDS [] [] [] true).suspicious_values.length) :=
  C3_needs_human_review {} (ValidationFlags.mk REQUIRED_FIELDS [] [] [] true) (by rfl)

/-! ## Claim C4 -/

/-- A grant whose `grant_id` value is a whitespace-only string. -/
def whitespaceGrant : GrantData :=
  { grant_id := Option.some ⟨PyVal.str " ", ConfidenceLevel.high⟩ }

/-- C4 counterexample: the claim says presence requires a non-empty value
*after trimming*, so a whitespace-only `grant_id` should be reported
missing.  The code applies Python truthiness with no trimming: `" "` is
truthy, and `grant_id` is NOT in `missing_required_fields`. -/
theorem C4_counterexample :
    validate whitespaceGrant =
      Except.ok
        { missing_required_fields :=
            ["grant_name", "funding_agency", "award_amount",
             "principal_investigator"]
          needs_human_review := true } ∧
    "grant_id" ∉
      ({ missing_required_fields :=
           ["grant_name", "funding_agency", "award_amount",
            "principal_investigator"]
         needs_human_review := true } : ValidationFlags).missing_required_fields :=
  ⟨by rfl, by decide⟩

/-- C4 (amended): whenever `validate` returns, `missing_required_fields`
is exactly the required names whose attribute is `None` or whose value is
Python-falsy — no whitespace trimming (a whitespace-only string counts as
present, a numeric `0` counts as missing); moreover the run can only have
completed with the principal investigator absent (a present one is never
judged by its name field: that iteration raises, see C2). -/
theorem C4_missing_required (g : GrantData) (flags : ValidationFlags)
    (h : validate g = Except.ok flags) :
    flags.missing_required_fields =
      REQUIRED_FIELDS.filter (fun n => isMissingFieldPred g n) ∧
    g.principal_investigator = Option.none := by
  obtain ⟨hr, -, -, -, -⟩ := validate_ok_parts g flags h
  exact ⟨checkRequiredAll_ok_filter g _ hr, checkRequiredAll_ok_pi_none g _ hr⟩

/-- Witness for C4 at the whitespace grant. -/
theorem C4_missing_required_witness :
    ({ missing_required_fields :=
         ["grant_name", "funding_agency", "award_amount",
          "principal_investigator"]
       needs_human_review := true } : ValidationFlags).missing_required_fields =
      REQUIRED_FIELDS.filter (fun n => isMissingFieldPred whitespaceGrant n) ∧
    whitespaceGrant.principal_investigator = Option.none :=
  C4_missing_required whitespaceGrant
    { missing_required_fields :=
        ["grant_name", "funding_agency", "award_amount",
         "principal_investigator"]
      needs_human_review := true }
    (by rfl)

/-! ## Claim C5 -/

/-- A grant whose award amount is the numeric value `0`. -/
def zeroAwardGrant : GrantData :=
  { award_amount := Option.some ⟨PyVal.int 0, ConfidenceLevel.high⟩ }

/-- C5 counterexample: the claim says a numeric amount ≤ 0, *including
exactly 0*, raises the zero-or-negative flag.  The code first tests Python
truthiness of the value: numeric `0` is falsy, so the whole
suspicious-amount check is skipped and no flag at all is raised (the field
is instead reported missing). -/
theorem C5_counterexample :
    validate zeroAwardGrant =
      Except.ok
        { missing_required_fields := REQUIRED_FIELDS
          needs_human_review := true } ∧
    Msg.awardZeroOrNegative ∉
      ({ missing_required_fields := REQUIRED_FIELDS
         needs_human_review := true } : ValidationFlags).suspicious_values :=
  ⟨by rfl, by decide⟩

/-- C5 (amended): for a present `award_amount` whose value is truthy, the
three outcomes are as claimed and mutually exclusive — numeric ≤ 0 yields
exactly the zero-or-negative flag, numeric > 50,000,000 exactly the
unusually-high flag, non-numeric exactly the invalid-format flag.  But a
falsy value (numeric `0`, empty string) short-circuits the presence guard:
none of the three flags is raised. -/
theorem C5_award_amount (g : GrantData) (flags : ValidationFlags)
    (f : ExtractedField) (h : validate g = Except.ok flags)
    (ha : g.award_amount = Option.some f) :
    (pyTruthy f.value = false →
      Msg.awardZeroOrNegative ∉ flags.suspicious_values ∧
      Msg.awardTooHigh ∉ flags.suspicious_values ∧
      Msg.awardNotNumber ∉ flags.suspicious_values) ∧
    (∀ a : ℚ, pyTruthy f.value = true → pyFloat f.value = Except.ok a →
      a ≤ 0 →
      Msg.awardZeroOrNegative ∈ flags.suspicious_values ∧
      Msg.awardTooHigh ∉ flags.suspicious_values ∧
      Msg.awardNotNumber ∉ flags.suspicious_values) ∧
    (∀ a : ℚ, pyTruthy f.value = true → pyFloat f.value = Except.ok a →
      50000000 < a →
      Msg.awardTooHigh ∈ flags.suspicious_values ∧
      Msg.awardZeroOrNegative ∉ flags.suspicious_values ∧
      Msg.awardNotNumber ∉ flags.suspicious_values) ∧
    (∀ e : PyErr, pyTruthy f.value = true → pyFloat f.value = Except.error e →
      Msg.awardNotNumber ∈ flags.suspicious_values ∧
      Msg.awardZeroOrNegative ∉ flags.suspicious_values ∧
      Msg.awardTooHigh ∉ flags.suspicious_values) := by
  obtain ⟨-, -, -, hs, -⟩ := validate_ok_parts g flags h
  have hz := award_msg_not_in_tail g Msg.awardZeroOrNegative (Or.inl rfl)
  have hh := award_msg_not_in_tail g Msg.awardTooHigh (Or.inr (Or.inl rfl))
  have hn := award_msg_not_in_tail g Msg.awardNotNumber (Or.inr (Or.inr rfl))
  rw [hs, ha]
  refine ⟨?_, ?_, ?_, ?_⟩
  · intro htru
    simp only [checkAward, htru, if_neg Bool.false_ne_true]
    exact ⟨by simp, by simp, by simp⟩
  · intro a htru hfl hle
    simp only [checkAward, htru, if_pos rfl, hfl, if_pos hle]
    refine ⟨by simp, ?_, ?_⟩ <;> simp_all [List.mem_append]
  · intro a htru hfl hgt
    have hnle : ¬ a ≤ 0 := by linarith
    simp only [checkAward, htru, if_pos rfl, hfl, if_neg hnle, if_pos hgt]
    refine ⟨by simp, ?_, ?_⟩ <;> simp_all [List.mem_append]
  · intro e htru hfl
    simp only [checkAward, htru, if_pos rfl, hfl]
    refine ⟨by simp, ?_, ?_⟩ <;> simp_all [List.mem_append]

/-- A grant with award amount −5, the spec's own test vector. -/
def minusFiveGrant : GrantData :=
  { award_amount := Option.some ⟨PyVal.int (-5), ConfidenceLevel.high⟩ }

/-- Witness for C5: award −5 raises exactly the zero-or-negative flag. -/
theorem C5_award_amount_witness :
    Msg.awardZeroOrNegative ∈
      ({ missing_required_fields :=
           ["grant_id", "grant_name", "funding_agency",
            "principal_investigator"]
         suspicious_values := [Msg.awardZeroOrNegative]
         needs_human_review := true } : ValidationFlags).suspicious_values ∧
    Msg.awardTooHigh ∉
      ({ missing_required_fields :=
           ["grant_id", "grant_name", "funding_agency",
            "principal_investigator"]
         suspicious_values := [Msg.awardZeroOrNegative]
         needs_human_review := true } : ValidationFlags).suspicious_values ∧
    Msg.awardNotNumber ∉
      ({ missing_required_fields :=
           ["grant_id", "grant_name", "funding_agency",
            "principal_investigator"]
         suspicious_values := [Msg.awardZeroOrNegative]
         needs_human_review := true } : ValidationFlags).suspicious_values :=
  (C5_award_amount minusFiveGrant
    { missing_required_fields :=
        ["grant_id", "grant_name", "funding_agency", "principal_investigator"]
      suspicious_values := [Msg.awardZeroOrNegative]
      needs_human_review := true }
    ⟨PyVal.int (-5), ConfidenceLevel.high⟩ (by rfl) (by rfl)).2.1
    (-5) (by rfl) (by norm_num [pyFloat]) (by norm_num)

/-! ## Helper lemmas about the ledger dictionary -/

lemma lookupDoc_dictInsert_self (l : Ledger) (k : String) (v : DocumentInfo) :
    lookupDoc (dictInsert l k v) k = Option.some v := by
  induction l with
  | nil => simp [dictInsert, lookupDoc]
  | cons p rest ih =>
    by_cases hp : p.1 = k
    · simp [dictInsert, hp, lookupDoc]
    · simp [dictInsert, hp, lookupDoc, ih]

lemma lookupDoc_dictInsert_ne (l : Ledger) (k : String) (v : DocumentInfo)
    (g : String) (h : g ≠ k) :
    lookupDoc (dictInsert l k v) g = lookupDoc l g := by
  have hkg : ¬ (k = g) := fun he => h he.symm
  induction l with
  | nil => simp [dictInsert, lookupDoc, hkg]
  | cons p rest ih =>
    by_cases hp : p.1 = k
    · subst hp
      simp [dictInsert, lookupDoc, hkg]
    · simp [dictInsert, hp, lookupDoc, ih]

lemma mem_keys_dictInsert (l : Ledger) (k : String) (v : DocumentInfo) :
    ∀ x, x ∈ ledgerKeys (dictInsert l k v) → x ∈ ledgerKeys l ∨ x = k := by
  induction l with
  | nil => intro x h; simpa [dictInsert, ledgerKeys] using h
  | cons p rest ih =>
    intro x h
    by_cases hp : p.1 = k
    · rw [show dictInsert (p :: rest) k v = (k, v) :: rest from by
        simp [dictInsert, hp]] at h
      simp only [ledgerKeys, List.map_cons, List.mem_cons] at h ⊢
      rcases h with h | h
      · exact Or.inr h
      · exact Or.inl (Or.inr h)
    · rw [show dictInsert (p :: rest) k v = p :: dictInsert rest k v from by
        simp [dictInsert, hp]] at h
      simp only [ledgerKeys, List.map_cons, List.mem_cons] at h ⊢
      rcases h with h | h
      · exact Or.inl (Or.inl h)
      · rcases ih x h with h2 | h2
        · exact Or.inl (Or.inr h2)
        · exact Or.inr h2

lemma keysNodup_dictInsert (l : Ledger) (k : String) (v : DocumentInfo)
    (h : keysNodup l) : keysNodup (dictInsert l k v) := by
  induction l with
  | nil => simp [dictInsert, keysNodup, ledgerKeys]
  | cons p rest ih =>
    simp only [keysNodup, ledgerKeys, List.map_cons, List.nodup_cons] at h
    by_cases hp : p.1 = k
    · subst hp
      simpa [dictInsert, keysNodup, ledgerKeys, List.nodup_cons] using h
    · have hrest := ih h.2
      simp only [dictInsert, if_neg hp, keysNodup, ledgerKeys, List.map_cons,
        List.nodup_cons]
      refine ⟨fun hmem => ?_, hrest⟩
      rcases mem_keys_dictInsert rest k v p.1 hmem with h2 | h2
      · exact h.1 h2
      · exact hp h2

lemma lookupDoc_some_mem_keys (l : Ledger) (k : String) (d : DocumentInfo) :
    lookupDoc l k = Option.some d → k ∈ ledgerKeys l := by
  induction l with
  | nil => intro h; simp [lookupDoc] at h
  | cons p rest ih =>
    intro h
    by_cases hp : p.1 = k
    · simp only [ledgerKeys, List.map_cons, List.mem_cons]
      exact Or.inl hp.symm
    · simp only [lookupDoc, if_neg hp] at h
      simp only [ledgerKeys, List.map_cons, List.mem_cons]
      exact Or.inr (ih h)

lemma count_keys_dictInsert (l : Ledger) (k : String) (v : DocumentInfo)
    (h : keysNodup l) : (ledgerKeys (dictInsert l k v)).count k = 1 :=
  List.count_eq_one_of_mem (keysNodup_dictInsert l k v h)
    (lookupDoc_some_mem_keys _ k v (lookupDoc_dictInsert_self l k v))

lemma transition_state_found (l : Ledger) (f : String) (ns : WorkflowState)
    (em : Option String) (now : Nat) (d : DocumentInfo)
    (h : lookupDoc l f = Option.some d) :
    transition_state l f ns em now =
      (dictInsert l f
        { d with current_state := ns, updated_at := now, error_message := em },
       true) := by
  simp [transition_state, h]

lemma keysNodup_transition (l : Ledger) (f : String) (ns : WorkflowState)
    (em : Option String) (now : Nat) (h : keysNodup l) :
    keysNodup (transition_state l f ns em now).1 := by
  cases hl : lookupDoc l f with
  | none => simpa [transition_state, hl] using h
  | some d =>
    rw [transition_state_found l f ns em now d hl]
    exact keysNodup_dictInsert l f _ h

/-! ## Claim C6 -/

/-- C6 (amended): `transition_state` fails with the ledger unchanged when
the filename is absent; on success it returns `True`, rewrites
`current_state` to the new state, bumps `updated_at` to `now`, leaves
every other record untouched — and sets `error_message` to exactly the
supplied argument (`None` when omitted), *without* forcing it clear for
non-`ERROR` states.  Two successive successful transitions with a
monotone clock end at the last state with `updated_at` equal to the later
instant, so `updated_at` is non-decreasing. -/
theorem C6_transition_state (l : Ledger) (f : String) (ns : WorkflowState)
    (em : Option String) (now : Nat) :
    (lookupDoc l f = Option.none → transition_state l f ns em now = (l, false)) ∧
    (∀ d, lookupDoc l f = Option.some d →
      (transition_state l f ns em now).2 = true ∧
      lookupDoc (transition_state l f ns em now).1 f =
        Option.some
          { d with current_state := ns, updated_at := now, error_message := em } ∧
      (∀ g, g ≠ f →
        lookupDoc (transition_state l f ns em now).1 g = lookupDoc l g)) ∧
    (∀ d ns2 em2 t2, lookupDoc l f = Option.some d → now ≤ t2 →
      lookupDoc
          ((transition_state (transition_state l f ns em now).1 f ns2 em2 t2).1)
          f =
        Option.some
          { d with current_state := ns2, updated_at := t2, error_message := em2 }) := by
  refine ⟨fun h => by simp [transition_state, h], fun d h => ?_, fun d ns2 em2 t2 h _ => ?_⟩
  · rw [transition_state_found l f ns em now d h]
    exact ⟨rfl, lookupDoc_dictInsert_self l f _,
      fun g hg => lookupDoc_dictInsert_ne l f _ g hg⟩
  · rw [transition_state_found l f ns em now d h]
    have h1 : lookupDoc (dictInsert l f
        { d with current_state := ns, updated_at := now, error_message := em }) f =
        Option.some
          { d with current_state := ns, updated_at := now, error_message := em } :=
      lookupDoc_dictInsert_self l f _
    rw [transition_state_found _ f ns2 em2 t2 _ h1]
    exact lookupDoc_dictInsert_self _ f _

/-- A concrete pending document record. -/
def trDoc : DocumentInfo :=
  { filename := "y.pdf", original_path := "y.pdf",
    current_state := WorkflowState.pending, created_at := 0, updated_at := 0,
    metadata := [], error_message := Option.none }

/-- C6 counterexample: the claim says `error_message` is cleared whenever
the new state is not `ERROR`, regardless of the argument.  Transitioning to
`PROCESSING` while passing an error message leaves that message stored:
the code assigns the argument unconditionally. -/
theorem C6_counterexample :
    (transition_state [("y.pdf", trDoc)] "y.pdf" WorkflowState.processing
        (Option.some "boom") 7).1 =
      [("y.pdf",
        { trDoc with current_state := WorkflowState.processing, updated_at := 7,
                     error_message := Option.some "boom" })] ∧
    WorkflowState.processing ≠ WorkflowState.error ∧
    ({ trDoc with current_state := WorkflowState.processing, updated_at := 7,
                  error_message := Option.some "boom" }).error_message ≠
      Option.none :=
  ⟨by rfl, by decide, by decide⟩

/-- Witness for C6: a successful transition on a one-record ledger. -/
theorem C6_transition_state_witness :
    (transition_state [("y.pdf", trDoc)] "y.pdf" WorkflowState.processing
        Option.none 5).2 = true ∧
    lookupDoc (transition_state [("y.pdf", trDoc)] "y.pdf"
        WorkflowState.processing Option.none 5).1 "y.pdf" =
      Option.some
        { trDoc with current_state := WorkflowState.processing, updated_at := 5,
                     error_message := Option.none } :=
  ⟨((C6_transition_state [("y.pdf", trDoc)] "y.pdf" WorkflowState.processing
      Option.none 5).2.1 trDoc (by rfl)).1,
   ((C6_transition_state [("y.pdf", trDoc)] "y.pdf" WorkflowState.processing
      Option.none 5).2.1 trDoc (by rfl)).2.1⟩

/-! ## Claim C1 -/

/-- C1 (amended): `move_document` returns failure on an unmapped state, a
missing source file, or a relocation exception — but the ledger is forced
to `ERROR` (with the exception message) only in the exception case; the
two guard failures return `False` leaving the ledger unchanged, retaining
the pre-call state.  After a successful physical move of a registered
document, the record's state equals `to_state` with `error_message`
cleared and the file relocated. -/
theorem C1_move_document (env : MoveEnv) (l : Ledger) (f : String)
    (from_state to_state : WorkflowState) (now : Nat) :
    (state_dirs from_state = Option.none ∨ state_dirs to_state = Option.none →
      move_document env l f from_state to_state now = (l, env.fs, false)) ∧
    (∀ fd td, state_dirs from_state = Option.some fd →
      state_dirs to_state = Option.some td →
      (fd ++ "/" ++ f) ∉ env.fs.files →
      move_document env l f from_state to_state now = (l, env.fs, false)) ∧
    (∀ fd td msg d, state_dirs from_state = Option.some fd →
      state_dirs to_state = Option.some td →
      (fd ++ "/" ++ f) ∈ env.fs.files →
      env.shutilFailure = Option.some msg →
      lookupDoc l f = Option.some d →
      (move_document env l f from_state to_state now).2.2 = false ∧
      lookupDoc (move_document env l f from_state to_state now).1 f =
        Option.some
          { d with current_state := WorkflowState.error, updated_at := now,
                   error_message := Option.some msg }) ∧
    (∀ fd td d, state_dirs from_state = Option.some fd →
      state_dirs to_state = Option.some td →
      (fd ++ "/" ++ f) ∈ env.fs.files →
      env.shutilFailure = Option.none →
      lookupDoc l f = Option.some d →
      (move_document env l f from_state to_state now).2.2 = true ∧
      lookupDoc (move_document env l f from_state to_state now).1 f =
        Option.some
          { d with current_state := to_state, updated_at := now,
                   error_message := Option.none } ∧
      (move_document env l f from_state to_state now).2.1 =
        ⟨env.fs.files.erase (fd ++ "/" ++ f) ++ [td ++ "/" ++ f]⟩) := by
  refine ⟨fun h => ?_, fun fd td hfd htd hsrc => ?_,
    fun fd td msg d hfd htd hsrc hfail hl => ?_,
    fun fd td d hfd htd hsrc hfail hl => ?_⟩
  · rcases h with h | h <;>
      cases hfs : state_dirs from_state <;>
        cases hts : state_dirs to_state <;>
          simp_all [move_document]
  · simp [move_document, hfd, htd, hsrc]
  · have hmv : move_document env l f from_state to_state now =
        ((transition_state l f WorkflowState.error (Option.some msg) now).1,
         env.fs, false) := by
      simp [move_document, hfd, htd, hsrc, hfail]
    rw [hmv, transition_state_found l f WorkflowState.error (Option.some msg) now d hl]
    exact ⟨rfl, lookupDoc_dictInsert_self l f _⟩
  · have hmv : move_document env l f from_state to_state now =
        ((transition_state l f to_state Option.none now).1,
         ⟨env.fs.files.erase (fd ++ "/" ++ f) ++ [td ++ "/" ++ f]⟩, true) := by
      simp [move_document, hfd, htd, hsrc, hfail]
    rw [hmv, transition_state_found l f to_state Option.none now d hl]
    exact ⟨rfl, lookupDoc_dictInsert_self l f _, rfl⟩

/-- A concrete registered pending document for the move claims. -/
def mvDoc : DocumentInfo :=
  { filename := "x.pdf", original_path := "intake/pending/x.pdf",
    current_state := WorkflowState.pending, created_at := 0, updated_at := 0,
    metadata := [], error_message := Option.none }

/-- C1 counterexample: the claim says every failed move rewrites the record
to `ERROR` with a non-empty message.  Moving from `COMPLETED` (which has no
configured directory) fails with `False` and leaves the ledger untouched:
the record keeps state `PENDING` and has no error message. -/
theorem C1_counterexample :
    move_document ⟨⟨[]⟩, Option.none⟩ [("x.pdf", mvDoc)] "x.pdf"
        WorkflowState.completed WorkflowState.pending 5 =
      ([("x.pdf", mvDoc)], ⟨[]⟩, false) ∧
    lookupDoc [("x.pdf", mvDoc)] "x.pdf" = Option.some mvDoc ∧
    mvDoc.current_state = WorkflowState.pending ∧
    mvDoc.error_message = Option.none :=
  ⟨by rfl, by rfl, by rfl, by rfl⟩

/-- Witness for C1: a simulated relocation exception forces the record to
`ERROR` carrying the exception message. -/
theorem C1_move_document_witness :
    (move_document ⟨⟨["intake/pending/x.pdf"]⟩, Option.some "disk full"⟩
        [("x.pdf", mvDoc)] "x.pdf" WorkflowState.pending
        WorkflowState.processing 9).2.2 = false ∧
    lookupDoc (move_document ⟨⟨["intake/pending/x.pdf"]⟩, Option.some "disk full"⟩
        [("x.pdf", mvDoc)] "x.pdf" WorkflowState.pending
        WorkflowState.processing 9).1 "x.pdf" =
      Option.some
        { mvDoc with current_state := WorkflowState.error, updated_at := 9,
                     error_message := Option.some "disk full" } :=
  (C1_move_document ⟨⟨["intake/pending/x.pdf"]⟩, Option.some "disk full"⟩
      [("x.pdf", mvDoc)] "x.pdf" WorkflowState.pending WorkflowState.processing
      9).2.2.1
    "intake/pending" "intake/processing" "disk full" mvDoc (by rfl) (by rfl)
    (by simp) (by rfl) (by rfl)

/-! ## Claim C10 -/

lemma keysNodup_move (env : MoveEnv) (l : Ledger) (f : String)
    (from_state to_state : WorkflowState) (now : Nat) (h : keysNodup l) :
    keysNodup (move_document env l f from_state to_state now).1 := by
  unfold move_document
  cases state_dirs from_state with
  | none => exact h
  | some fd =>
    cases state_dirs to_state with
    | none => exact h
    | some td =>
      dsimp only
      split
      · cases env.shutilFailure with
        | some msg => exact keysNodup_transition l f _ _ now h
        | none => exact keysNodup_transition l f _ _ now h
      · exact h

lemma keysNodup_foldl_transition (now : Nat) (docs : List DocumentInfo) :
    ∀ l : Ledger, keysNodup l →
      keysNodup (docs.foldl
        (fun acc doc =>
          (transition_state acc doc.filename WorkflowState.pending
            Option.none now).1)
        l) := by
  induction docs with
  | nil => intro l h; exact h
  | cons d rest ih =>
    intro l h
    exact ih _ (keysNodup_transition l d.filename _ _ now h)

/-- C10: the ledger keys stay unique under every operation (Python `dict`
semantics, preserved by the embedding's `dictInsert`); `register_document`
keys the record by the basename of the supplied path and wholly overwrites
any record at that key with a fresh `PENDING` record whose `created_at`
and `updated_at` equal `now`; registering two paths sharing a basename
leaves exactly one record, holding the second registration's data. -/
theorem C10_ledger_uniqueness :
    (∀ (l : Ledger) (fp : String) (m : List (String × String)) (now : Nat),
      keysNodup l → keysNodup (register_document l fp m now).1) ∧
    (∀ (l : Ledger) (f : String) (ns : WorkflowState) (em : Option String)
        (now : Nat),
      keysNodup l → keysNodup (transition_state l f ns em now).1) ∧
    (∀ (env : MoveEnv) (l : Ledger) (f : String)
        (from_state to_state : WorkflowState) (now : Nat),
      keysNodup l → keysNodup (move_document env l f from_state to_state now).1) ∧
    (∀ (l : Ledger) (now : Nat),
      keysNodup l → keysNodup (cleanup_error_documents l now)) ∧
    (∀ (l : Ledger) (fp : String) (m : List (String × String)) (now : Nat),
      (register_document l fp m now).2 = pathName fp ∧
      lookupDoc (register_document l fp m now).1 (pathName fp) =
        Option.some
          { filename := pathName fp, original_path := fp,
            current_state := WorkflowState.pending, created_at := now,
            updated_at := now, metadata := m, error_message := Option.none } ∧
      (∀ g, g ≠ pathName fp →
        lookupDoc (register_document l fp m now).1 g = lookupDoc l g)) ∧
    (∀ (l : Ledger) (p1 p2 : String) (m1 m2 : List (String × String))
        (t1 t2 : Nat),
      keysNodup l → pathName p1 = pathName p2 →
      (ledgerKeys
          ((register_document (register_document l p1 m1 t1).1 p2 m2 t2).1)).count
          (pathName p2) = 1 ∧
      lookupDoc ((register_document (register_document l p1 m1 t1).1 p2 m2 t2).1)
          (pathName p2) =
        Option.some
          { filename := pathName p2, original_path := p2,
            current_state := WorkflowState.pending, created_at := t2,
            updated_at := t2, metadata := m2, error_message := Option.none }) := by
  refine ⟨fun l fp m now h => keysNodup_dictInsert l (pathName fp) _ h,
    fun l f ns em now h => keysNodup_transition l f ns em now h,
    fun env l f fs2 ts2 now h => keysNodup_move env l f fs2 ts2 now h,
    fun l now h => keysNodup_foldl_transition now _ l h,
    fun l fp m now => ⟨rfl, lookupDoc_dictInsert_self l (pathName fp) _,
      fun g hg => lookupDoc_dictInsert_ne l (pathName fp) _ g hg⟩,
    fun l p1 p2 m1 m2 t1 t2 h _ => ?_⟩
  have h1 : keysNodup (register_document l p1 m1 t1).1 :=
    keysNodup_dictInsert l (pathName p1) _ h
  exact ⟨count_keys_dictInsert _ (pathName p2) _ h1,
    lookupDoc_dictInsert_self _ (pathName p2) _⟩

/-- Witness for C10: two registrations of different paths sharing the
basename `x.pdf` on the empty ledger leave exactly one record, the second
one's. -/
theorem C10_ledger_uniqueness_witness :
    (ledgerKeys
        ((register_document (register_document [] "a/x.pdf" [] 1).1 "b/x.pdf"
          [] 2).1)).count (pathName "b/x.pdf") = 1 ∧
    lookupDoc ((register_document (register_document [] "a/x.pdf" [] 1).1
        "b/x.pdf" [] 2).1) (pathName "b/x.pdf") =
      Option.some
        { filename := pathName "b/x.pdf", original_path := "b/x.pdf",
          current_state := WorkflowState.pending, created_at := 2,
          updated_at := 2, metadata := [], error_message := Option.none } :=
  (C10_ledger_uniqueness).2.2.2.2.2 [] "a/x.pdf" "b/x.pdf" [] [] 1 2
    (by simp [keysNodup, ledgerKeys]) (by rfl)

/-! ## Claim C7 -/

instance : IsTotal DocumentInfo (fun a b => a.created_at ≤ b.created_at) :=
  ⟨fun a b => Nat.le_total a.created_at b.created_at⟩

instance : IsTrans DocumentInfo (fun a b => a.created_at ≤ b.created_at) :=
  ⟨fun _ _ _ hab hbc => Nat.le_trans hab hbc⟩

lemma filter_key_orderedInsert (c : Nat) (d : DocumentInfo)
    (s : List DocumentInfo) :
    (List.orderedInsert (fun a b => a.created_at ≤ b.created_at) d s).filter
        (fun x => x.created_at == c) =
      if d.created_at == c then
        d :: s.filter (fun x => x.created_at == c)
      else s.filter (fun x => x.created_at == c) := by
  induction s with
  | nil =>
    by_cases hd : d.created_at = c <;> simp [List.orderedInsert, hd]
  | cons b rest ih =>
    by_cases hR : d.created_at ≤ b.created_at
    · simp only [List.orderedInsert, if_pos hR, List.filter_cons]
    · have hb : b.created_at < d.created_at := Nat.not_le.mp hR
      simp only [List.orderedInsert, if_neg hR, List.filter_cons, ih]
      by_cases hd : d.created_at = c
      · have hbne : b.created_at ≠ c := Nat.ne_of_lt (hd ▸ hb)
        simp [hd, hbne]
      · simp [hd]

lemma filter_key_insertionSort (c : Nat) (xs : List DocumentInfo) :
    (xs.insertionSort (fun a b => a.created_at ≤ b.created_at)).filter
        (fun x => x.created_at == c) =
      xs.filter (fun x => x.created_at == c) := by
  induction xs with
  | nil => rfl
  | cons x l ih =>
    simp only [List.insertionSort, filter_key_orderedInsert, ih,
      List.filter_cons]

/-- C7 (amended): `list_documents_by_state` returns exactly the records in
the requested state but in ledger (insertion) order — it performs no
sorting.  Only `get_next_documents_for_processing` sorts, and it sorts
stably by `created_at` ascending: the result of its sort is sorted, is a
permutation of the filtered list, and preserves the relative order of
records with equal `created_at` (ties keep insertion order, NOT filename
order); it then returns the first `limit` filenames. -/
theorem C7_query_by_state (l : Ledger) (s : WorkflowState) (limit : Nat) :
    (∀ d, d ∈ list_documents_by_state l s ↔
      d ∈ l.map Prod.snd ∧ d.current_state = s) ∧
    List.Sublist (list_documents_by_state l s) (l.map Prod.snd) ∧
    List.Sorted (fun a b => a.created_at ≤ b.created_at)
      ((list_documents_by_state l s).insertionSort
        (fun a b => a.created_at ≤ b.created_at)) ∧
    List.Perm
      ((list_documents_by_state l s).insertionSort
        (fun a b => a.created_at ≤ b.created_at))
      (list_documents_by_state l s) ∧
    (∀ c : Nat,
      ((list_documents_by_state l s).insertionSort
          (fun a b => a.created_at ≤ b.created_at)).filter
        (fun x => x.created_at == c) =
      (list_documents_by_state l s).filter (fun x => x.created_at == c)) ∧
    get_next_documents_for_processing l s limit =
      (((list_documents_by_state l s).insertionSort
          (fun a b => a.created_at ≤ b.created_at)).take limit).map
        DocumentInfo.filename := by
  refine ⟨fun d => ?_, List.filter_sublist _, List.sorted_insertionSort _ _,
    List.perm_insertionSort _ _, fun c => filter_key_insertionSort c _, rfl⟩
  simp [list_documents_by_state, List.mem_filter]

/-- Pending document created later but registered first. -/
def docA : DocumentInfo :=
  { filename := "a.pdf", original_path := "a.pdf",
    current_state := WorkflowState.pending, created_at := 2, updated_at := 2,
    metadata := [], error_message := Option.none }

/-- Pending document created earlier but registered second. -/
def docB : DocumentInfo :=
  { filename := "b.pdf", original_path := "b.pdf",
    current_state := WorkflowState.pending, created_at := 1, updated_at := 1,
    metadata := [], error_message := Option.none }

/-- Two pending documents sharing `created_at`, registered in the order
`b.pdf`, `a.pdf`. -/
def docC : DocumentInfo :=
  { filename := "b.pdf", original_path := "b.pdf",
    current_state := WorkflowState.pending, created_at := 3, updated_at := 3,
    metadata := [], error_message := Option.none }

def docD : DocumentInfo :=
  { filename := "a.pdf", original_path := "a.pdf",
    current_state := WorkflowState.pending, created_at := 3, updated_at := 3,
    metadata := [], error_message := Option.none }

/-- C7 counterexample: the claim says the query returns records ordered by
`created_at` ascending with ties broken by filename.  In fact
`list_documents_by_state` returns insertion order unsorted (here `docA`
with `created_at = 2` precedes `docB` with `created_at = 1`), and the sort
in `get_next_documents_for_processing` breaks `created_at` ties by
insertion order, not filename (`b.pdf` stays before `a.pdf`). -/
theorem C7_counterexample :
    list_documents_by_state [("a.pdf", docA), ("b.pdf", docB)]
        WorkflowState.pending = [docA, docB] ∧
    docB.created_at < docA.created_at ∧
    get_next_documents_for_processing [("b.pdf", docC), ("a.pdf", docD)]
        WorkflowState.pending 10 = ["b.pdf", "a.pdf"] :=
  ⟨by rfl, by decide, by rfl⟩

/-! ## Claim C8 -/

/-- A persisted status file with an unknown state string: the
`WorkflowState(...)` constructor raises, reaching the `except` clause. -/
def corruptRaw : RawStatus :=
  RawStatus.obj
    [("z.pdf",
      { filename := "z.pdf", original_path := "z.pdf",
        current_state := "bogus", created_at := 0, updated_at := 0,
        metadata := [], error_message := Option.none })]

/-- C8 counterexample: the claim says `load` fails with a distinct
`CorruptLedger` error, rather than returning a value, on every unparseable
persisted form.  The code instead catches the exception, prints a warning
and returns the empty mapping — the same value it returns when no state
exists at all. -/
theorem C8_counterexample :
    parseStatus corruptRaw = Option.none ∧
    get_workflow_status (Option.some corruptRaw) = ([], true) ∧
    (get_workflow_status (Option.some corruptRaw)).1 =
      (get_workflow_status Option.none).1 :=
  ⟨by rfl, by rfl, by rfl⟩

/-- C8 (amended): `get_workflow_status` returns the empty mapping when no
status file exists; when the persisted form cannot be parsed it does NOT
fail with a distinct error — it prints a warning and returns the same
empty mapping, leaving the caller no error value to react to; a parseable
file yields its mapping with no warning. -/
theorem C8_load_behavior :
    get_workflow_status Option.none = ([], false) ∧
    (∀ raw, parseStatus raw = Option.none →
      get_workflow_status (Option.some raw) = ([], true)) ∧
    (∀ raw l, parseStatus raw = Option.some l →
      get_workflow_status (Option.some raw) = (l, false)) := by
  refine ⟨rfl, fun raw h => ?_, fun raw l h => ?_⟩ <;>
    simp [get_workflow_status, h]

/-- Witness for C8: the corrupt file degrades to the empty mapping with a
warning; an empty (but well-formed) file parses to the empty mapping. -/
theorem C8_load_behavior_witness :
    get_workflow_status (Option.some corruptRaw) = ([], true) ∧
    get_workflow_status (Option.some (RawStatus.obj [])) = ([], false) :=
  ⟨C8_load_behavior.2.1 corruptRaw (by rfl),
   C8_load_behavior.2.2 (RawStatus.obj []) [] (by rfl)⟩

/-! ## Claim C9 -/

lemma parseRecord_serializeRecord (d : DocumentInfo) :
    parseRecord (serializeRecord d) = Option.some d := by
  obtain ⟨fn, op, cs, ca, ua, md, em⟩ := d
  cases cs <;> rfl

lemma parseEntries_map_serialize (l : Ledger) :
    parseEntries (l.map (fun p => (p.1, serializeRecord p.2))) =
      Option.some l := by
  induction l with
  | nil => rfl
  | cons p rest ih => simp [parseEntries, parseRecord_serializeRecord, ih]

/-- C9 counterexample: the claim says `save` writes the serialized ledger
to a temporary location and renames it into place.  The code performs one
direct truncate-and-write on the status file itself: its operation trace
contains no rename at all, so an interruption mid-write can leave a
truncated file. -/
theorem C9_counterexample :
    save_workflow_status [] =
      [FsOp.writeTruncate statusFilePath (RawStatus.obj [])] ∧
    ¬ ∃ src dest, FsOp.renameInto src dest ∈ save_workflow_status [] := by
  refine ⟨rfl, ?_⟩
  rintro ⟨src, dest, hmem⟩
  simp [save_workflow_status] at hmem

/-- C9 (amended): `save_workflow_status` persists the full mapping — the
serialized form parses back to exactly the mapping given — but does so as
a single direct truncating write to the status file path, with no
temporary file and no rename, so atomicity against interruption is not
provided. -/
theorem C9_save_direct_write (l : Ledger) :
    save_workflow_status l =
      [FsOp.writeTruncate statusFilePath (serializeStatus l)] ∧
    parseStatus (serializeStatus l) = Option.some l :=
  ⟨rfl, parseEntries_map_serialize l⟩

end CHIGrants
